import Mathlib

/-!
Verification of the VestaS concurrent TCP port scanner core
(`src/OSINT/VestaS.py`).

The scanner's pure computations (service lookup, banner post-processing,
result construction, result sealing) are embedded as executable Lean
functions.  The effectful socket operations are abstracted by outcome
parameters: each port's `connect_ex` call is summarised by a
`ConnectOutcome`, and the socket interaction inside `banner_grab` by a
`RecvOutcome`.  The nondeterministic completion order of the thread pool
is a list parameter constrained (in the theorems) to be a permutation of
the submitted port list.  The bounded thread pool itself is modelled as a
small transition system.
-/

/-- Embeds the dictionary built by `PortScanner.scan_port` on an open port
(VestaS.py lines 62-67): keys `port`, `service`, `banner`, `status`. -/
structure PortResult where
  port : Nat
  service : String
  banner : String
  status : String
deriving DecidableEq, Repr

/-- Embeds the `COMMON_SERVICES` dictionary (VestaS.py lines 20-26), as an
association list in the source's order. -/
def COMMON_SERVICES : List (Nat × String) :=
  [(21, "FTP"), (22, "SSH"), (23, "Telnet"), (25, "SMTP"), (53, "DNS"),
   (80, "HTTP"), (110, "POP3"), (135, "RPC"), (139, "NetBIOS"), (143, "IMAP"),
   (443, "HTTPS"), (993, "IMAPS"), (995, "POP3S"), (1433, "SQL Server"),
   (3306, "MySQL"), (3389, "RDP"), (5432, "PostgreSQL"), (5900, "VNC"),
   (6379, "Redis"), (27017, "MongoDB"), (8080, "HTTP-Alt"),
   (9200, "Elasticsearch")]

/-- Embeds `COMMON_SERVICES.get(port, "Unknown")` (VestaS.py line 60). -/
def serviceGet (port : Nat) : String :=
  (COMMON_SERVICES.lookup port).getD "Unknown"

/-- Error policy of a Python `bytes.decode('utf-8', errors=...)` call:
the source uses `ignoreErrs` (invalid bytes dropped); `replaceErrs`
(invalid bytes become U+FFFD) is the policy the specification describes. -/
inductive Utf8Errors where
  | ignoreErrs
  | replaceErrs
deriving DecidableEq, Repr

/-- Output contributed by one malformed byte under the given error policy. -/
def utf8ErrOut (pol : Utf8Errors) : List Char :=
  match pol with
  | .ignoreErrs => []
  | .replaceErrs => [Char.ofNat 0xFFFD]

/-- Whether a byte is a UTF-8 continuation byte (`10xxxxxx`). -/
def isUtf8Cont (b : Nat) : Bool :=
  decide (0x80 ≤ b) && decide (b < 0xC0)

/-- Fuel-indexed loop modelling Python's UTF-8 decoder: ASCII bytes and
well-formed 2-, 3- and 4-byte sequences (with the standard overlong and
surrogate exclusions) decode to their code point; a malformed byte yields
`utf8ErrOut pol` and decoding resumes at the next byte.  The fuel only
bounds recursion; `fuel ≥ bs.length` makes the result fuel-independent
because every step consumes at least one byte. -/
def utf8DecodeGo (pol : Utf8Errors) : Nat → List Nat → List Char
  | 0, _ => []
  | _, [] => []
  | fuel + 1, b :: bs =>
    if b < 0x80 then
      Char.ofNat b :: utf8DecodeGo pol fuel bs
    else if b < 0xC2 then
      utf8ErrOut pol ++ utf8DecodeGo pol fuel bs
    else if b < 0xE0 then
      match bs with
      | c1 :: bs2 =>
        if isUtf8Cont c1 then
          Char.ofNat ((b - 0xC0) * 0x40 + (c1 - 0x80)) :: utf8DecodeGo pol fuel bs2
        else utf8ErrOut pol ++ utf8DecodeGo pol fuel bs
      | [] => utf8ErrOut pol
    else if b < 0xF0 then
      match bs with
      | c1 :: c2 :: bs2 =>
        if isUtf8Cont c1 && isUtf8Cont c2
            && (b != 0xE0 || decide (0xA0 ≤ c1))
            && (b != 0xED || decide (c1 < 0xA0)) then
          Char.ofNat ((b - 0xE0) * 0x1000 + (c1 - 0x80) * 0x40 + (c2 - 0x80))
            :: utf8DecodeGo pol fuel bs2
        else utf8ErrOut pol ++ utf8DecodeGo pol fuel bs
      | _ => utf8ErrOut pol ++ utf8DecodeGo pol fuel bs
    else if b < 0xF5 then
      match bs with
      | c1 :: c2 :: c3 :: bs2 =>
        if isUtf8Cont c1 && isUtf8Cont c2 && isUtf8Cont c3
            && (b != 0xF0 || decide (0x90 ≤ c1))
            && (b != 0xF4 || decide (c1 < 0x90)) then
          Char.ofNat ((b - 0xF0) * 0x40000 + (c1 - 0x80) * 0x1000
              + (c2 - 0x80) * 0x40 + (c3 - 0x80))
            :: utf8DecodeGo pol fuel bs2
        else utf8ErrOut pol ++ utf8DecodeGo pol fuel bs
      | _ => utf8ErrOut pol ++ utf8DecodeGo pol fuel bs
    else utf8ErrOut pol ++ utf8DecodeGo pol fuel bs

/-- Embeds `data.decode('utf-8', errors=pol)` for byte list `bs`. -/
def utf8Decode (pol : Utf8Errors) (bs : List Nat) : List Char :=
  utf8DecodeGo pol bs.length bs

/-- Whitespace as stripped by Python's `str.strip()` (ASCII part: space,
tab, newline, carriage return, vertical tab, form feed). -/
def pyIsSpace (c : Char) : Bool :=
  c == ' ' || c == '\t' || c == '\n' || c == '\r'
    || c == Char.ofNat 0x0B || c == Char.ofNat 0x0C

/-- Embeds Python's `str.strip()`: drop whitespace from both ends. -/
def pyStrip (s : List Char) : List Char :=
  ((s.dropWhile pyIsSpace).reverse.dropWhile pyIsSpace).reverse

/-- Abstract outcome of the socket interaction inside `banner_grab`
(VestaS.py lines 37-45): either some socket call (connect, send, recv)
raised, or the connection succeeded and `recv(1024)` observed the given
byte stream, of which it returns at most the first 1024 bytes. -/
inductive RecvOutcome where
  | exn
  | bytes (stream : List Nat)
deriving DecidableEq, Repr

/-- Ports for which `banner_grab` sends an HTTP request before reading
(VestaS.py line 42); this only influences what bytes the peer sends back,
which the `RecvOutcome` abstraction already captures. -/
def httpProbePorts : List Nat := [80, 443, 8080, 8443]

/-- Embeds `PortScanner.banner_grab` (VestaS.py lines 34-49): decode the
received bytes with `errors='ignore'`, strip whitespace, and return the
first 100 characters, or the literal `"No banner"` when nothing remains
or any socket operation raised. -/
def banner_grab (env : RecvOutcome) : String :=
  match env with
  | .exn => "No banner"
  | .bytes stream =>
    let banner := pyStrip (utf8Decode .ignoreErrs (stream.take 1024))
    if banner = [] then "No banner" else String.mk (banner.take 100)

/-- Abstract outcome of `s.connect_ex((host, port))` in `scan_port`
(VestaS.py line 56): either the call raised (for example `OverflowError`
for a port outside [0, 65535], or `gaierror` for an unresolvable host),
or it returned an error code, `0` meaning the connection succeeded. -/
inductive ConnectOutcome where
  | exn
  | result (code : Int)
deriving DecidableEq, Repr

/-- Embeds `PortScanner.scan_port` (VestaS.py lines 51-70), instrumented
with the number of outbound TCP connection attempts the call makes: one
for `connect_ex` (line 56), plus the one `banner_grab` makes when it is
invoked (line 61; `banner_grab` always attempts exactly one connection,
line 39).  The catch-all `except` (line 68) turns every raised error into
the `None` return. -/
def scan_port_traced (port : Nat) (grab_banner : Bool)
    (cenv : ConnectOutcome) (benv : RecvOutcome) : Option PortResult × Nat :=
  match cenv with
  | .exn => (none, 1)
  | .result code =>
    if code = 0 then
      (some { port := port
              service := serviceGet port
              banner := if grab_banner then banner_grab benv else "Not captured"
              status := "Open" },
       1 + (if grab_banner then 1 else 0))
    else (none, 1)

/-- The value returned by `PortScanner.scan_port` (VestaS.py lines 51-70):
`Some` result for an open port, `None` otherwise; the function never
raises because of the catch-all `except`. -/
def scan_port (port : Nat) (grab_banner : Bool)
    (cenv : ConnectOutcome) (benv : RecvOutcome) : Option PortResult :=
  (scan_port_traced port grab_banner cenv benv).1

/-- Embeds `range(start_port, end_port + 1)` (VestaS.py line 93): the
ports for which `scan_range` submits one probe each. -/
def portsInRange (start_port end_port : Nat) : List Nat :=
  List.range' start_port (end_port + 1 - start_port)

/-- Embeds the `as_completed` collection loop (VestaS.py lines 96-100 and
206-210): `order` is the order in which the submitted probes complete;
each future's `result()` is appended when the probe found the port open
and skipped otherwise. -/
def collectResults (order : List Nat) (grab_banner : Bool)
    (cenv : Nat → ConnectOutcome) (benv : Nat → RecvOutcome) : List PortResult :=
  order.filterMap fun p => scan_port p grab_banner (cenv p) (benv p)

/-- Ordering of results by port number, the key of the final
`sorted(..., key=lambda x: x['port'])` calls (VestaS.py lines 103, 213). -/
def portLE (a b : PortResult) : Prop := a.port ≤ b.port

instance : DecidableRel portLE := fun a b => Nat.decLe a.port b.port

instance : IsTotal PortResult portLE := ⟨fun a b => Nat.le_total a.port b.port⟩

instance : IsTrans PortResult portLE := ⟨fun _ _ _ => Nat.le_trans⟩

/-- Embeds `sorted(open_ports, key=lambda x: x['port'])` (VestaS.py lines
103, 213): Python's `sorted` is a stable sort by the key, modelled by the
stable `List.insertionSort`. -/
def sealResults (l : List PortResult) : List PortResult :=
  l.insertionSort portLE

/-- Value returned by `PortScanner.scan_range` (VestaS.py lines 72-104):
one probe is submitted per port of `range(start_port, end_port + 1)`;
`order` is the completion order chosen by the executor (a permutation of
`portsInRange start_port end_port` in any real run); the collected open
ports are sealed by sorting on the port number. -/
def scan_range (start_port end_port : Nat) (grab_banner : Bool)
    (cenv : Nat → ConnectOutcome) (benv : Nat → RecvOutcome)
    (order : List Nat) : List PortResult :=
  sealResults (collectResults order grab_banner cenv benv)

/-- Value returned by `scan_specific_ports` (VestaS.py lines 190-214):
one probe is submitted per element of `ports`; `order` is the completion
order chosen by the executor (a permutation of `ports` in any real run). -/
def scan_specific_ports (ports : List Nat) (grab_banner : Bool)
    (cenv : Nat → ConnectOutcome) (benv : Nat → RecvOutcome)
    (order : List Nat) : List PortResult :=
  sealResults (collectResults order grab_banner cenv benv)

/-- The `PortScanner` object's state relevant to results (VestaS.py
line 30). -/
structure PortScanner where
  results : List PortResult
deriving DecidableEq, Repr

/-- Embeds the state update `self.results = sorted(open_ports, ...)` of
`scan_range` (VestaS.py line 103): the field is assigned the freshly
sealed list; the previous contents do not flow into the assignment. -/
def scan_range_run (scanner : PortScanner) (start_port end_port : Nat)
    (grab_banner : Bool) (cenv : Nat → ConnectOutcome)
    (benv : Nat → RecvOutcome) (order : List Nat) : PortScanner :=
  { scanner with
    results := scan_range start_port end_port grab_banner cenv benv order }

/-- Embeds the state update `scanner.results = sorted(results, ...)` of
`scan_specific_ports` (VestaS.py line 213). -/
def scan_specific_run (scanner : PortScanner) (ports : List Nat)
    (grab_banner : Bool) (cenv : Nat → ConnectOutcome)
    (benv : Nat → RecvOutcome) (order : List Nat) : PortScanner :=
  { scanner with
    results := scan_specific_ports ports grab_banner cenv benv order }

/-- State of the `ThreadPoolExecutor` worker pool created at VestaS.py
lines 90 and 200: ports whose probe is still queued, currently executing,
and finished. -/
structure PoolState where
  queued : List Nat
  running : List Nat
  done : List Nat
deriving DecidableEq, Repr

/-- Initial pool state: every submitted probe queued, none running. -/
def initPool (ports : List Nat) : PoolState :=
  { queued := ports, running := [], done := [] }

/-- Transition relation of a bounded worker pool with `max_workers = W`,
the semantics of `ThreadPoolExecutor(max_workers=W)`: a queued probe may
start only while fewer than `W` probes are running (a worker thread is
free); a running probe may finish at any time, in any order. -/
inductive PoolStep (W : Nat) : PoolState → PoolState → Prop where
  | start (p : Nat) (rest running done : List Nat)
      (hfree : running.length < W) :
      PoolStep W ⟨p :: rest, running, done⟩ ⟨rest, p :: running, done⟩
  | finish (p : Nat) (queued l1 l2 done : List Nat) :
      PoolStep W ⟨queued, l1 ++ p :: l2, done⟩ ⟨queued, l1 ++ l2, p :: done⟩

/-- Modelled from the spec (claim C6 states this policy): the banner
pipeline as the specification words it, with invalid byte sequences
REPLACED by U+FFFD instead of dropped; to be compared with `banner_grab`,
which embeds the source's `errors='ignore'`. -/
def bannerClaimReplace (stream : List Nat) : String :=
  let banner := pyStrip (utf8Decode .replaceErrs (stream.take 1024))
  if banner = [] then "No banner" else String.mk (banner.take 100)

/-- Connection outcomes of the end-to-end scenario of claim C8: only port
9000 accepts the TCP connection; every other port refuses (`connect_ex`
returns the nonzero error code 111, ECONNREFUSED). -/
def scenarioConnect (p : Nat) : ConnectOutcome :=
  if p = 9000 then .result 0 else .result 111


/-! Helper lemmas about the probe and the sealing pipeline. -/

/-- A probe against a port whose connection attempt succeeds returns the
open-port record. -/
theorem scan_port_open_eq (p : Nat) (g : Bool) (benv : RecvOutcome) :
    scan_port p g (ConnectOutcome.result 0) benv
      = some { port := p, service := serviceGet p,
               banner := if g then banner_grab benv else "Not captured",
               status := "Open" } := rfl

/-- A probe whose connection attempt does not succeed returns `none`. -/
theorem scan_port_fail_eq (p : Nat) (g : Bool) (benv : RecvOutcome)
    {c : ConnectOutcome} (h : c ≠ ConnectOutcome.result 0) :
    scan_port p g c benv = none := by
  cases c with
  | exn => rfl
  | result code =>
    have hc : code ≠ 0 := fun hh => h (by rw [hh])
    simp [scan_port, scan_port_traced, hc]

/-- A successful probe result carries the probed port number and only
arises from a connection that succeeded. -/
theorem scan_port_some_inv {p : Nat} {g : Bool} {c : ConnectOutcome}
    {benv : RecvOutcome} {r : PortResult}
    (h : scan_port p g c benv = some r) :
    r.port = p ∧ c = ConnectOutcome.result 0 := by
  by_cases hc : c = ConnectOutcome.result 0
  · subst hc
    rw [scan_port_open_eq] at h
    cases h
    exact ⟨rfl, rfl⟩
  · rw [scan_port_fail_eq p g benv hc] at h
    cases h

/-- The ports of the collected results are exactly the completed ports
whose probe succeeded, in completion order. -/
theorem collect_map_port (order : List Nat) (g : Bool)
    (cenv : Nat → ConnectOutcome) (benv : Nat → RecvOutcome) :
    (collectResults order g cenv benv).map PortResult.port
      = order.filter fun p => (scan_port p g (cenv p) (benv p)).isSome := by
  induction order with
  | nil => rfl
  | cons p rest ih =>
    simp only [collectResults, List.filterMap_cons, List.filter_cons] at ih ⊢
    cases h : scan_port p g (cenv p) (benv p) with
    | none => simpa [h] using ih
    | some r =>
      have hp := (scan_port_some_inv h).1
      simpa [h, hp] using ih

/-- Sealing only permutes the collected results. -/
theorem sealResults_perm (l : List PortResult) : List.Perm (sealResults l) l :=
  List.perm_insertionSort portLE l

/-- Sealed results are sorted by port number. -/
theorem sealResults_sorted (l : List PortResult) :
    List.Sorted portLE (sealResults l) :=
  List.sorted_insertionSort portLE l

/-- When the collected results carry pairwise distinct ports, the sealed
list has distinct ports sorted strictly ascending. -/
theorem sealResults_strict (l : List PortResult)
    (hnd : (l.map PortResult.port).Nodup) :
    ((sealResults l).map PortResult.port).Nodup
      ∧ List.Sorted (· < ·) ((sealResults l).map PortResult.port) := by
  have hperm : List.Perm ((sealResults l).map PortResult.port) (l.map PortResult.port) :=
    (sealResults_perm l).map _
  have hnd2 : ((sealResults l).map PortResult.port).Nodup :=
    hperm.nodup_iff.mpr hnd
  have hle : List.Sorted (· ≤ ·) ((sealResults l).map PortResult.port) := by
    rw [List.Sorted, List.pairwise_map]
    exact sealResults_sorted l
  exact ⟨hnd2, hle.lt_of_le hnd2⟩

/-- Distinct submitted ports yield collected results with distinct ports,
whatever the completion order. -/
theorem collect_nodup {ports order : List Nat} (g : Bool)
    (cenv : Nat → ConnectOutcome) (benv : Nat → RecvOutcome)
    (hperm : order.Perm ports) (hnd : ports.Nodup) :
    ((collectResults order g cenv benv).map PortResult.port).Nodup := by
  rw [collect_map_port]
  exact (hperm.nodup_iff.mpr hnd).filter _

/-- Keys of an association list that do not occur look up to `none`. -/
theorem lookup_eq_none_of_not_mem {l : List (Nat × String)} {p : Nat}
    (hp : p ∉ l.map Prod.fst) : l.lookup p = none := by
  induction l with
  | nil => rfl
  | cons kv rest ih =>
    simp only [List.map_cons, List.mem_cons, not_or] at hp
    obtain ⟨h1, h2⟩ := hp
    have hbeq : (p == kv.1) = false := beq_eq_false_iff_ne.mpr h1
    cases kv with
    | mk k v => simp only [List.lookup_cons, hbeq] at *; exact ih h2

/-! Claim theorems. -/

/-- Claim C1: for every valid scan input (a list of distinct requested
ports) and every completion order of the probes, the sealed result
sequence returned by `scan_specific_ports` and by `scan_range` (the value
stored in `results`) has no duplicate port numbers and is sorted strictly
ascending by port number. -/
theorem scan_results_nodup_sorted_ascending
    (ports order : List Nat) (g : Bool)
    (cenv : Nat → ConnectOutcome) (benv : Nat → RecvOutcome)
    (hnd : ports.Nodup) (hperm : order.Perm ports) :
    (((scan_specific_ports ports g cenv benv order).map PortResult.port).Nodup
      ∧ List.Sorted (· < ·)
          ((scan_specific_ports ports g cenv benv order).map PortResult.port))
    ∧ ∀ s e order2, order2.Perm (portsInRange s e) →
        ((scan_range s e g cenv benv order2).map PortResult.port).Nodup
          ∧ List.Sorted (· < ·)
              ((scan_range s e g cenv benv order2).map PortResult.port) := by
  constructor
  · exact sealResults_strict _ (collect_nodup g cenv benv hperm hnd)
  · intro s e order2 hperm2
    exact sealResults_strict _
      (collect_nodup g cenv benv hperm2 (List.nodup_range' _ _))

/-- Concrete run of claim C1's theorem: two distinct ports, both open,
completing in reverse submission order. -/
theorem scan_results_nodup_sorted_ascending_witness :
    (((scan_specific_ports [22, 80] false (fun _ => ConnectOutcome.result 0)
        (fun _ => RecvOutcome.exn) [80, 22]).map PortResult.port).Nodup
      ∧ List.Sorted (· < ·)
          ((scan_specific_ports [22, 80] false (fun _ => ConnectOutcome.result 0)
            (fun _ => RecvOutcome.exn) [80, 22]).map PortResult.port))
    ∧ ∀ s e order2, order2.Perm (portsInRange s e) →
        ((scan_range s e false (fun _ => ConnectOutcome.result 0)
            (fun _ => RecvOutcome.exn) order2).map PortResult.port).Nodup
          ∧ List.Sorted (· < ·)
              ((scan_range s e false (fun _ => ConnectOutcome.result 0)
                (fun _ => RecvOutcome.exn) order2).map PortResult.port) :=
  scan_results_nodup_sorted_ascending [22, 80] [80, 22] false
    (fun _ => ConnectOutcome.result 0) (fun _ => RecvOutcome.exn)
    (by decide) (by decide)

/-- Claim C2 counterexample: requesting the single port 0 dispatches a
probe for port 0 (it is in the submitted port list) and the invocation
completes normally with an empty result list instead of failing a
configuration check before dispatch; an empty requested port set likewise
scans to an empty result instead of failing. -/
theorem scan_no_port_validation_counterexample :
    0 ∈ portsInRange 0 0
    ∧ scan_range 0 0 false (fun _ => ConnectOutcome.exn)
        (fun _ => RecvOutcome.exn) (portsInRange 0 0) = []
    ∧ scan_specific_ports [] false (fun _ => ConnectOutcome.exn)
        (fun _ => RecvOutcome.exn) [] = [] := by
  decide

/-- Claim C2 (amended): the entry points perform no port validation at
all: a probe is dispatched for every requested port (the submitted range
is exactly the inclusive interval, 0 included when requested), the
invocation never fails, and a port whose probe's connection attempt does
not succeed (as happens for out-of-range ports, whose `connect_ex`
raises) is silently absent from the sealed results. -/
theorem scan_no_validation_absorbs_failures
    (ports order : List Nat) (g : Bool)
    (cenv : Nat → ConnectOutcome) (benv : Nat → RecvOutcome) (p : Nat)
    (hfail : cenv p ≠ ConnectOutcome.result 0) :
    p ∉ (scan_specific_ports ports g cenv benv order).map PortResult.port
    ∧ ∀ s e q, q ∈ portsInRange s e ↔ s ≤ q ∧ q ≤ e := by
  constructor
  · intro hmem
    have hperm2 : List.Perm
        ((scan_specific_ports ports g cenv benv order).map PortResult.port)
        ((collectResults order g cenv benv).map PortResult.port) :=
      (sealResults_perm _).map _
    have hmem2 := hperm2.mem_iff.mp hmem
    rw [collect_map_port] at hmem2
    have := (List.mem_filter.mp hmem2).2
    rw [scan_port_fail_eq p g (benv p) hfail] at this
    simp at this
  · intro s e q
    simp only [portsInRange, List.mem_range'_1]
    omega

/-- Concrete run of claim C2's amended theorem: port 0 requested, its
probe raising, absent from the results. -/
theorem scan_no_validation_absorbs_failures_witness :
    0 ∉ (scan_specific_ports [0] false (fun _ => ConnectOutcome.exn)
          (fun _ => RecvOutcome.exn) [0]).map PortResult.port
    ∧ ∀ s e q, q ∈ portsInRange s e ↔ s ≤ q ∧ q ≤ e :=
  scan_no_validation_absorbs_failures [0] [0] false
    (fun _ => ConnectOutcome.exn) (fun _ => RecvOutcome.exn) 0 (by decide)

/-- Claim C3: whenever the probe's TCP connection attempt fails for any
reason (`connect_ex` returning a nonzero code for refusal, timeout or
unreachability, or any raised exception), `scan_port` returns `none`; the
embedding is a total function into `Option`, reflecting that the
catch-all `except` lets no per-port failure propagate as an exception. -/
theorem scan_port_failure_returns_none
    (port : Nat) (g : Bool) (cenv : ConnectOutcome) (benv : RecvOutcome)
    (h : cenv ≠ ConnectOutcome.result 0) :
    scan_port port g cenv benv = none :=
  scan_port_fail_eq port g benv h

/-- Concrete run of claim C3's theorem: a probe whose connect raised. -/
theorem scan_port_failure_returns_none_witness :
    scan_port 80 true ConnectOutcome.exn RecvOutcome.exn = none :=
  scan_port_failure_returns_none 80 true ConnectOutcome.exn RecvOutcome.exn
    (by decide)

/-- Claim C4: in the bounded worker-pool model of
`ThreadPoolExecutor(max_workers = W)`, every pool state reachable from
the initial state of a scan has at most `W` probes in flight, whatever
the size of the submitted port set and however starts and finishes
interleave. -/
theorem pool_running_le_max_workers (W : Nat) (ports : List Nat)
    (s : PoolState)
    (h : Relation.ReflTransGen (PoolStep W) (initPool ports) s) :
    s.running.length ≤ W := by
  induction h with
  | refl => simp [initPool]
  | tail hr hstep ih =>
    cases hstep with
    | start p rest running done hfree => simpa using hfree
    | finish p queued l1 l2 done =>
      simp only [List.length_append, List.length_cons] at ih ⊢
      omega

/-- Concrete run of claim C4's theorem: three submitted probes, pool
bound 2, after two starts the state has 2 probes in flight, within the
bound. -/
theorem pool_running_le_max_workers_witness :
    (⟨[443], [80, 22], []⟩ : PoolState).running.length ≤ 2 :=
  pool_running_le_max_workers 2 [22, 80, 443] ⟨[443], [80, 22], []⟩
    (Relation.ReflTransGen.tail
      (Relation.ReflTransGen.tail Relation.ReflTransGen.refl
        (PoolStep.start 22 [80, 443] [] [] (by decide)))
      (PoolStep.start 80 [443] [22] [] (by decide)))

/-- Claim C5: `banner_grab` returns the literal string `"No banner"`
whenever any socket or decode step raised, and whenever the read yields
no usable characters (no bytes at all, only whitespace, or only invalid
byte sequences); a banner-capture failure never surfaces as an error,
the embedding being a total function into `String`. -/
theorem banner_grab_no_banner_on_failure (env : RecvOutcome)
    (h : env = RecvOutcome.exn
      ∨ ∃ stream, env = RecvOutcome.bytes stream
          ∧ pyStrip (utf8Decode .ignoreErrs (stream.take 1024)) = []) :
    banner_grab env = "No banner" := by
  rcases h with h | ⟨stream, rfl, hempty⟩
  · subst h; rfl
  · simp [banner_grab, hempty]

/-- Concrete run of claim C5's theorem: a read that yields no bytes. -/
theorem banner_grab_no_banner_on_failure_witness :
    banner_grab (RecvOutcome.bytes []) = "No banner" :=
  banner_grab_no_banner_on_failure (RecvOutcome.bytes [])
    (Or.inr ⟨[], rfl, by decide⟩)

/-- Claim C6 counterexample: for received bytes FF 48 69 the scanner
decodes with `errors='ignore'` and drops the invalid byte, returning
"Hi", while the claimed replacement policy would put a replacement
character first; the two banners differ. -/
theorem banner_decode_not_replace_counterexample :
    banner_grab (RecvOutcome.bytes [0xFF, 0x48, 0x69]) = "Hi"
    ∧ bannerClaimReplace [0xFF, 0x48, 0x69]
        = String.mk [Char.ofNat 0xFFFD, 'H', 'i']
    ∧ banner_grab (RecvOutcome.bytes [0xFF, 0x48, 0x69])
        ≠ bannerClaimReplace [0xFF, 0x48, 0x69] := by
  decide

/-- Claim C6 (amended): for every successful read the banner is computed
from at most the first 1024 received bytes (bytes past the cap never
influence the result), decoding permissively with invalid byte sequences
dropped (`errors='ignore'`, never raising), trimming surrounding
whitespace, and truncating to at most 100 characters; the returned
string never exceeds 100 characters. -/
theorem banner_grab_pipeline_bounds (stream : List Nat) :
    banner_grab (RecvOutcome.bytes stream)
        = banner_grab (RecvOutcome.bytes (stream.take 1024))
    ∧ banner_grab (RecvOutcome.bytes stream)
        = (let b := pyStrip (utf8Decode .ignoreErrs (stream.take 1024))
           if b = [] then "No banner" else String.mk (b.take 100))
    ∧ (banner_grab (RecvOutcome.bytes stream)).length ≤ 100 := by
  refine ⟨?_, rfl, ?_⟩
  · simp [banner_grab, List.take_take]
  · simp only [banner_grab]
    split
    · decide
    · simp only [String.length, List.length_take]
      omega

/-- Claim C7 counterexample: with banner capture enabled and the port
open, `scan_port` performs two outbound connection attempts (one by
`connect_ex`, a second inside `banner_grab`), not exactly one. -/
theorem scan_port_two_connections_counterexample :
    (scan_port_traced 80 true (ConnectOutcome.result 0)
        (RecvOutcome.bytes [])).2 = 2
    ∧ (scan_port_traced 80 true (ConnectOutcome.result 0)
        (RecvOutcome.bytes [])).2 ≠ 1 := by
  decide

/-- Claim C7 (amended): each `scan_port` call makes exactly one outbound
TCP connection attempt, for every port, connection outcome and banner
flag — except when banner capture is enabled and the port is open, in
which case `banner_grab` makes one additional attempt, two in total. -/
theorem scan_port_connection_attempts (port : Nat) (g : Bool)
    (cenv : ConnectOutcome) (benv : RecvOutcome) :
    (scan_port_traced port g cenv benv).2
      = if cenv = ConnectOutcome.result 0 ∧ g = true then 2 else 1 := by
  cases cenv with
  | exn => simp [scan_port_traced]
  | result code =>
    by_cases hc : code = 0
    · subst hc
      cases g <;> simp [scan_port_traced]
    · simp [scan_port_traced, hc]

/-- Claim C8: scanning the range 8990-9010 with only port 9000 accepting
the connection and banner capture disabled yields exactly one result,
with port 9000, service "Unknown", status "Open" and banner
"Not captured" — shown for the reversed completion order, a genuine
permutation of the submitted range; in general every open port probed
with banner capture disabled reports banner "Not captured" and status
"Open". -/
theorem scan_range_loopback_scenario :
    (List.Perm (portsInRange 8990 9010).reverse (portsInRange 8990 9010)
      ∧ scan_range 8990 9010 false scenarioConnect (fun _ => RecvOutcome.exn)
          (portsInRange 8990 9010).reverse
        = [{ port := 9000, service := "Unknown",
             banner := "Not captured", status := "Open" }])
    ∧ ∀ (p : Nat) (benv : RecvOutcome),
        scan_port p false (ConnectOutcome.result 0) benv
          = some { port := p, service := serviceGet p,
                   banner := "Not captured", status := "Open" } :=
  ⟨⟨List.reverse_perm _, by decide⟩, fun _ _ => rfl⟩

/-- Claim C9 counterexample: the table entry for port 1433 is the string
"SQL Server", not the claimed "SQL-Server". -/
theorem serviceGet_1433_counterexample :
    serviceGet 1433 = "SQL Server" ∧ serviceGet 1433 ≠ "SQL-Server" := by
  decide

/-- Claim C9 (amended): service lookup is a pure total function of the
port number alone, returning the tabulated name for each of the 22
well-known ports — with 1433 mapped to "SQL Server" — and "Unknown" for
every port outside the table. -/
theorem serviceGet_matches_table :
    (serviceGet 21 = "FTP" ∧ serviceGet 22 = "SSH" ∧ serviceGet 23 = "Telnet"
      ∧ serviceGet 25 = "SMTP" ∧ serviceGet 53 = "DNS"
      ∧ serviceGet 80 = "HTTP" ∧ serviceGet 110 = "POP3"
      ∧ serviceGet 135 = "RPC" ∧ serviceGet 139 = "NetBIOS"
      ∧ serviceGet 143 = "IMAP" ∧ serviceGet 443 = "HTTPS"
      ∧ serviceGet 993 = "IMAPS" ∧ serviceGet 995 = "POP3S"
      ∧ serviceGet 1433 = "SQL Server" ∧ serviceGet 3306 = "MySQL"
      ∧ serviceGet 3389 = "RDP" ∧ serviceGet 5432 = "PostgreSQL"
      ∧ serviceGet 5900 = "VNC" ∧ serviceGet 6379 = "Redis"
      ∧ serviceGet 27017 = "MongoDB" ∧ serviceGet 8080 = "HTTP-Alt"
      ∧ serviceGet 9200 = "Elasticsearch")
    ∧ ∀ p : Nat, p ∉ COMMON_SERVICES.map Prod.fst →
        serviceGet p = "Unknown" := by
  refine ⟨by decide, ?_⟩
  intro p hp
  rw [serviceGet, lookup_eq_none_of_not_mem hp]
  rfl

/-- Concrete run of claim C9's amended theorem: an untabulated port. -/
theorem serviceGet_matches_table_witness :
    serviceGet 12345 = "Unknown" :=
  serviceGet_matches_table.2 12345 (by decide)

/-- Claim C10: `scan_range` submits probes for exactly the ports of the
inclusive interval from `start_port` to `end_port`, each submitted
exactly once, and a completed scan overwrites the scanner's `results`
field entirely: the post-run contents are independent of whatever a
previous session had stored there. -/
theorem scan_range_inclusive_and_overwrite :
    (∀ s e q, q ∈ portsInRange s e ↔ s ≤ q ∧ q ≤ e)
    ∧ (∀ s e, (portsInRange s e).Nodup)
    ∧ (∀ st1 st2 s e g cenv benv order,
        (scan_range_run st1 s e g cenv benv order).results
          = (scan_range_run st2 s e g cenv benv order).results)
    ∧ (∀ st1 st2 ports g cenv benv order,
        (scan_specific_run st1 ports g cenv benv order).results
          = (scan_specific_run st2 ports g cenv benv order).results) := by
  refine ⟨?_, ?_, fun _ _ _ _ _ _ _ _ => rfl, fun _ _ _ _ _ _ _ => rfl⟩
  · intro s e q
    simp only [portsInRange, List.mem_range'_1]
    omega
  · intro s e
    exact List.nodup_range' _ _
